import Mathlib

/-!
Verification of the African-Plagiarism-Checker backend
(`src/backend/main.py`, `src/backend/nlp_engine.py`, `src/backend/models.py`).

The Python source is shallowly embedded below.  Machine-level details
(HTTP framing, asyncio) are elided; the data and control flow of each
embedded function follows the source line by line.  Effects (database
access, temporary files, hashing, model invocations) are made explicit
as an event trace so that frame properties can be stated.
-/

namespace PlagCheck

/-! ## Python string primitives used by the source -/

/-- The set of characters stripped by Python's `str.strip()` with no
arguments: exactly the code points for which `str.isspace()` holds. -/
def pyIsSpace (c : Char) : Bool :=
  let n := c.toNat
  (0x09 ≤ n && n ≤ 0x0D) || n == 0x20 || (0x1C ≤ n && n ≤ 0x1F) ||
  n == 0x85 || n == 0xA0 || n == 0x1680 ||
  (0x2000 ≤ n && n ≤ 0x200A) || n == 0x2028 || n == 0x2029 ||
  n == 0x202F || n == 0x205F || n == 0x3000

/-- Python `s.strip()`: drop leading and trailing whitespace characters. -/
def pyStrip (s : String) : String :=
  String.mk (((s.data.dropWhile pyIsSpace).reverse.dropWhile pyIsSpace).reverse)

/-- Python `s.lower()` restricted to the ASCII range (the source only
compares lowered extensions against the ASCII literals `".pdf"` and
`".docx"`). -/
def pyLowerAscii (s : String) : String :=
  String.mk (s.data.map Char.toLower)

/-- `str.rfind(c)`: index of the last occurrence of `c`, or `-1`. -/
def pyRfind (l : List Char) (c : Char) : Int :=
  match l.reverse.findIdx? (· == c) with
  | some i => (l.length : Int) - 1 - i
  | none => -1

/-- The final path component, as in `pathlib.PurePath.name`:
everything after the last `/`. -/
def pathName (path : String) : List Char :=
  (path.data.reverse.takeWhile (· ≠ '/')).reverse

/-- `pathlib.PurePath(path).suffix`: with `name` the final component and
`i = name.rfind('.')`, the slice `name[i:]` when `0 < i < len(name) - 1`,
else the empty string. -/
def pySuffix (path : String) : String :=
  let name := pathName path
  let i := pyRfind name '.'
  if 0 < i ∧ i < (name.length : Int) - 1 then
    String.mk (name.drop i.toNat)
  else ""

/-! ## UTF-8 decoding with `errors='ignore'`

`bytes.decode('utf-8', errors='ignore')` drops each maximal invalid
subpart and continues.  Continuation-byte ranges for the second byte
follow the table in the CPython codec (rejecting overlong forms,
surrogates and code points above U+10FFFF). -/

/-- Is `b` a UTF-8 continuation byte? -/
def isCont (b : Nat) : Bool := 0x80 ≤ b && b ≤ 0xBF

/-- Valid range for the second byte of a sequence with lead byte `b0`. -/
def cont1Ok (b0 b1 : Nat) : Bool :=
  if b0 == 0xE0 then 0xA0 ≤ b1 && b1 ≤ 0xBF
  else if b0 == 0xED then 0x80 ≤ b1 && b1 ≤ 0x9F
  else if b0 == 0xF0 then 0x90 ≤ b1 && b1 ≤ 0xBF
  else if b0 == 0xF4 then 0x80 ≤ b1 && b1 ≤ 0x8F
  else isCont b1

/-- Fuel-indexed UTF-8 decoding loop.  `fuel` bounds the number of
bytes still to be examined (every step consumes at least one byte), so
the recursion is structural on `fuel` and reduces in the kernel.  On an
invalid sequence the maximal valid subpart is skipped and decoding
resumes at the first offending byte. -/
def utf8DecodeGo : Nat → List Nat → List Char
  | 0, _ => []
  | _ + 1, [] => []
  | fuel + 1, b :: rest =>
    if b < 0x80 then
      Char.ofNat b :: utf8DecodeGo fuel rest
    else if 0xC2 ≤ b ∧ b ≤ 0xDF then
      match rest with
      | b1 :: rest1 =>
        if isCont b1 then
          Char.ofNat ((b - 0xC0) * 0x40 + (b1 - 0x80)) :: utf8DecodeGo fuel rest1
        else utf8DecodeGo fuel rest
      | [] => []
    else if 0xE0 ≤ b ∧ b ≤ 0xEF then
      match rest with
      | b1 :: rest1 =>
        if cont1Ok b b1 then
          match rest1 with
          | b2 :: rest2 =>
            if isCont b2 then
              Char.ofNat ((b - 0xE0) * 0x1000 + (b1 - 0x80) * 0x40 + (b2 - 0x80)) ::
                utf8DecodeGo fuel rest2
            else utf8DecodeGo fuel rest1
          | [] => []
        else utf8DecodeGo fuel rest
      | [] => []
    else if 0xF0 ≤ b ∧ b ≤ 0xF4 then
      match rest with
      | b1 :: rest1 =>
        if cont1Ok b b1 then
          match rest1 with
          | b2 :: rest2 =>
            if isCont b2 then
              match rest2 with
              | b3 :: rest3 =>
                if isCont b3 then
                  Char.ofNat ((b - 0xF0) * 0x40000 + (b1 - 0x80) * 0x1000 +
                    (b2 - 0x80) * 0x40 + (b3 - 0x80)) :: utf8DecodeGo fuel rest3
                else utf8DecodeGo fuel rest2
              | [] => []
            else utf8DecodeGo fuel rest1
          | [] => []
        else utf8DecodeGo fuel rest
      | [] => []
    else
      utf8DecodeGo fuel rest

/-- UTF-8 decoding of a byte list with invalid subparts skipped,
modelling `content.decode('utf-8', errors='ignore')`. -/
def utf8DecodeIgnore (l : List Nat) : List Char :=
  utf8DecodeGo l.length l

/-- The decoded text of an upload's raw bytes, as computed at
`main.py` line 129: `content.decode('utf-8', errors='ignore')`. -/
def decodeUpload (content : List Nat) : String :=
  String.mk (utf8DecodeIgnore content)

/-! ## The live `POST /check-plagiarism/` endpoint (`main.py` lines 121-147)

The handler body at lines 123-147 returns on every path, so the code at
lines 148-250 of `main.py` is unreachable; the embedding below covers
exactly the reachable code.  JSON dictionary bodies are embedded as
association lists in source order, and every side effect the module could
perform (hashing, extraction, scoring, database access, temporary files)
is recorded in an explicit event trace — the reachable code performs
none of them. -/

/-- A JSON value as returned by the endpoint's dictionaries. -/
inductive JVal
  | str (s : String)
  | int (n : Int)
deriving DecidableEq, Repr

/-- An HTTP response: status code plus the JSON object body (an
association list of key/value pairs, in source order).  A bare Python
`dict` return value is serialized by FastAPI with status 200. -/
structure Response where
  status : Nat
  body : List (String × JVal)
deriving DecidableEq, Repr

/-- A row of the `documents` table (`models.py` lines 13-21). -/
structure DocumentRecord where
  id : Nat
  filename : String
  upload_timestamp : Nat
  file_hash : String
deriving DecidableEq, Repr

/-- Observable side effects the backend module can perform. -/
inductive Effect
  | hashComputed (path : String)
  | dbRead
  | dbWrite (rec : DocumentRecord)
  | textExtracted (path : String)
  | similarityComputed (t1 t2 : String)
  | tempCreated (path : String)
  | tempRemoved (path : String)
deriving DecidableEq, Repr

/-- Temporary paths created during a run, per its effect trace. -/
def tempsCreated (es : List Effect) : List String :=
  es.filterMap fun e => match e with | .tempCreated p => some p | _ => none

/-- Temporary paths removed during a run, per its effect trace. -/
def tempsRemoved (es : List Effect) : List String :=
  es.filterMap fun e => match e with | .tempRemoved p => some p | _ => none

/-- Temporary paths created but never removed during a run. -/
def tempsRemaining (es : List Effect) : List String :=
  (tempsCreated es).filter (fun p => ¬ p ∈ tempsRemoved es)

/-- The `POST /check-plagiarism/` handler, `main.py` lines 121-147.
It reads the upload, decodes it as UTF-8 ignoring errors, answers
`{"error": ...}` when the decoded text is blank, and otherwise answers
the constant-score success dictionary of lines 140-144.  Every return is
a bare dict, hence HTTP 200.  No other statement is reachable, so the
effect trace is empty. -/
def check_plagiarism (filename : String) (content : List Nat) :
    Response × List Effect :=
  let text_content := decodeUpload content
  if pyStrip text_content = "" then
    (⟨200, [("error", JVal.str "The uploaded document or text is empty.")]⟩, [])
  else
    (⟨200, [("similarity_score", JVal.int 25),
            ("filename", JVal.str filename),
            ("status", JVal.str "success")]⟩, [])

/-- The ledger: the rows of the `documents` table. -/
abbrev Ledger := List DocumentRecord

/-- Run a sequence of `POST /check-plagiarism/` requests against a
ledger state.  The handler takes no database session (`main.py` line
122), so no request reads or writes the ledger. -/
def runRequests (reqs : List (String × List Nat)) (led : Ledger) :
    Ledger × List (Response × List Effect) :=
  match reqs with
  | [] => (led, [])
  | (fn, c) :: rs =>
    let r := check_plagiarism fn c
    let rest := runRequests rs led
    (rest.1, r :: rest.2)

/-- The field names of a response body. -/
def bodyKeys (r : Response) : List String := r.body.map Prod.fst

/-! ## The similarity scorer (`nlp_engine.py` lines 30-55)

`PlagiarismDetector.compute_similarity` trims both inputs, short-circuits
to `0.0` on a blank input, and otherwise encodes both texts with the
sentence-transformer collaborator and returns the cosine similarity of
the two embeddings, scaled to a percentage and rounded to two decimal
places.  The embedding collaborator is an external black box: it is
modelled as an arbitrary pure function from text to a dense real vector.
Floats are modelled as real numbers.  The texts passed to
`model.encode` during a run are recorded as a trace. -/

/-- A fixed-length dense embedding vector. -/
abbrev Embedding := List ℝ

/-- Dot product of two embeddings. -/
def dotList (a b : Embedding) : ℝ := (List.zipWith (· * ·) a b).sum

/-- Euclidean norm of an embedding. -/
noncomputable def norm2 (a : Embedding) : ℝ := Real.sqrt (dotList a a)

/-- Cosine similarity of two embeddings, as computed by
`sklearn.metrics.pairwise.cosine_similarity` on two single-row
matrices: dot product over product of norms. -/
noncomputable def cosineSim (a b : Embedding) : ℝ :=
  dotList a b / (norm2 a * norm2 b)

/-- Python `round(x, 2)`: round to two decimal places. -/
noncomputable def round2dp (x : ℝ) : ℝ := ((round (x * 100) : ℤ) : ℝ) / 100

/-- The embedding collaborator: `SentenceTransformer.encode` as a pure
function from text to vector. -/
structure EncodeModel where
  encode : String → Embedding

/-- `PlagiarismDetector.compute_similarity` (`nlp_engine.py` lines
30-55), returning the score together with the trace of texts passed to
`model.encode` during the run. -/
noncomputable def compute_similarity (m : EncodeModel) (text1 text2 : String) :
    ℝ × List String :=
  if pyStrip text1 = "" ∨ pyStrip text2 = "" then (0, [])
  else
    let embedding1 := m.encode text1
    let embedding2 := m.encode text2
    let similarity := cosineSim embedding1 embedding2
    (round2dp (similarity * 100), [text1, text2])

/-- An embedding collaborator sending `"a"` to `[1]` and every other
text to `[-1]`: two non-blank texts with antipodal embeddings. -/
def oppositeModel : EncodeModel :=
  ⟨fun t => if t = "a" then [(1 : ℝ)] else [(-1 : ℝ)]⟩

/-- An embedding collaborator sending every text to `[1]`. -/
def constantModel : EncodeModel := ⟨fun _ => [(1 : ℝ)]⟩

/-! ## The hasher (`nlp_engine.py` lines 124-138)

`compute_file_hash` opens the file in binary mode, feeds it to a
`hashlib.sha256` object in 4096-byte blocks via `update`, and returns
`hexdigest()`.  The `hashlib.sha256` collaborator is modelled by a full
FIPS 180-4 SHA-256 over the accumulated byte stream: the object's state
is the list of bytes fed so far, `update` appends, and `hexdigest`
hashes the stream and renders lowercase hex. -/

/-- Fuel-indexed splitting of a list into blocks of `n` elements
(`n ≥ 1`); fuel bounds the number of blocks, so recursion is structural.
Called with `fuel = l.length`. -/
def chunksGo (n : Nat) : Nat → List α → List (List α)
  | _, [] => []
  | 0, _ :: _ => []
  | fuel + 1, x :: xs => (x :: xs).take n :: chunksGo n fuel ((x :: xs).drop n)

/-- Split a list into consecutive blocks of `n` elements (the last block
may be shorter). -/
def chunkList (n : Nat) (l : List α) : List (List α) := chunksGo n l.length l

/-- Truncate to a 32-bit word. -/
def wmask (x : Nat) : Nat := x % 4294967296

/-- 32-bit modular addition. -/
def wadd (x y : Nat) : Nat := (x + y) % 4294967296

/-- 32-bit right rotation. -/
def rotr (x n : Nat) : Nat := ((x >>> n) ||| (x <<< (32 - n))) % 4294967296

/-- 32-bit complement of a word below `2^32`. -/
def wnot (x : Nat) : Nat := 4294967295 - x

/-- SHA-256 `Ch` function. -/
def shaCh (x y z : Nat) : Nat := (x &&& y) ^^^ (wnot x &&& z)

/-- SHA-256 `Maj` function. -/
def shaMaj (x y z : Nat) : Nat := (x &&& y) ^^^ (x &&& z) ^^^ (y &&& z)

/-- SHA-256 `Σ0`. -/
def bigSigma0 (x : Nat) : Nat := rotr x 2 ^^^ rotr x 13 ^^^ rotr x 22

/-- SHA-256 `Σ1`. -/
def bigSigma1 (x : Nat) : Nat := rotr x 6 ^^^ rotr x 11 ^^^ rotr x 25

/-- SHA-256 `σ0`. -/
def smallSigma0 (x : Nat) : Nat := rotr x 7 ^^^ rotr x 18 ^^^ (x >>> 3)

/-- SHA-256 `σ1`. -/
def smallSigma1 (x : Nat) : Nat := rotr x 17 ^^^ rotr x 19 ^^^ (x >>> 10)

/-- The 64 SHA-256 round constants (FIPS 180-4 `K`), in decimal. -/
def shaK : List Nat :=
  [1116352408, 1899447441, 3049323471, 3921009573, 961987163,
   1508970993, 2453635748, 2870763221, 3624381080, 310598401,
   607225278, 1426881987, 1925078388, 2162078206, 2614888103,
   3248222580, 3835390401, 4022224774, 264347078, 604807628,
   770255983, 1249150122, 1555081692, 1996064986, 2554220882,
   2821834349, 2952996808, 3210313671, 3336571891, 3584528711,
   113926993, 338241895, 666307205, 773529912, 1294757372,
   1396182291, 1695183700, 1986661051, 2177026350, 2456956037,
   2730485921, 2820302411, 3259730800, 3345764771, 3516065817,
   3600352804, 4094571909, 275423344, 430227734, 506948616,
   659060556, 883997877, 958139571, 1322822218, 1537002063,
   1747873779, 1955562222, 2024104815, 2227730452, 2361852424,
   2428436474, 2756734187, 3204031479, 3329325298]

/-- The SHA-256 initial hash value (FIPS 180-4 `H(0)`), in decimal. -/
def shaH0 : List Nat :=
  [1779033703, 3144134277, 1013904242, 2773480762,
   1359893119, 2600822924, 528734635, 1541459225]

/-- Render `n` as `k` bytes, big-endian. -/
def toBytesBE (k n : Nat) : List Nat :=
  (List.range k).map fun i => (n >>> (8 * (k - 1 - i))) % 256

/-- Read a big-endian word from a byte block. -/
def bytesToWordBE (bs : List Nat) : Nat := bs.foldl (fun acc b => acc * 256 + b) 0

/-- SHA-256 message padding: append `0x80`, zero bytes up to 56 mod 64,
then the bit length as 8 big-endian bytes. -/
def padMessage (msg : List Nat) : List Nat :=
  msg ++ [0x80] ++ List.replicate ((119 - msg.length % 64) % 64) 0 ++
    toBytesBE 8 (msg.length * 8)

/-- One SHA-256 compression round over the state `[a,b,c,d,e,f,g,h]`. -/
def shaRound (w : List Nat) (st : List Nat) (t : Nat) : List Nat :=
  match st with
  | [a, b, c, d, e, f, g, h] =>
    let t1 := wadd h (wadd (bigSigma1 e) (wadd (shaCh e f g) (wadd (shaK.getD t 0) (w.getD t 0))))
    let t2 := wadd (bigSigma0 a) (shaMaj a b c)
    [wadd t1 t2, a, b, c, wadd d t1, e, f, g]
  | st => st

/-- Process one 64-byte block into the running hash value. -/
def shaCompress (h : List Nat) (block : List Nat) : List Nat :=
  let w16 := (chunkList 4 block).map bytesToWordBE
  let w := (List.range 48).foldl (fun ws i =>
    ws ++ [wadd (wadd (smallSigma1 (ws.getD (i + 14) 0)) (ws.getD (i + 9) 0))
            (wadd (smallSigma0 (ws.getD (i + 1) 0)) (ws.getD i 0))]) w16
  let final := (List.range 64).foldl (fun st t => shaRound w st t) h
  List.zipWith wadd h final

/-- SHA-256 digest of a byte list, as 32 bytes. -/
def sha256 (msg : List Nat) : List Nat :=
  (((chunkList 64 (padMessage msg)).foldl shaCompress shaH0).map (toBytesBE 4)).flatten

/-- The sixteen lowercase hex digits. -/
def hexDigits : List Char := "0123456789abcdef".data

/-- The hex digit for `n < 16` (defaulting inside the digit set). -/
def hexChar (n : Nat) : Char := hexDigits.getD n '0'

/-- Lowercase hex rendering of one byte. -/
def byteHex (b : Nat) : List Char := [hexChar (b / 16 % 16), hexChar (b % 16)]

/-- `hashlib.sha256(...).hexdigest()` of a byte stream. -/
def sha256hex (msg : List Nat) : String :=
  String.mk ((sha256 msg).map byteHex).flatten

/-- A file on disk as the hasher sees it: a path, a modification time
and the raw byte content. -/
structure DiskFile where
  path : String
  mtime : Nat
  content : List Nat

/-- `update`: feeding a block appends it to the hashed stream. -/
def hashUpdate (state block : List Nat) : List Nat := state ++ block

/-- `compute_file_hash` (`nlp_engine.py` lines 124-138): stream the
file's bytes through a SHA-256 object in 4096-byte blocks
(`iter(lambda: f.read(4096), b"")`) and return the lowercase hex
digest. -/
def compute_file_hash (f : DiskFile) : String :=
  sha256hex ((chunkList 4096 f.content).foldl hashUpdate [])

/-! ## The text extractor (`nlp_engine.py` lines 57-121)

`extract_text` dispatches on the lowered filename extension to
`load_pdf` (pypdf) or `load_docx` (python-docx), or raises `ValueError`
for any other extension.  The parser collaborators are modelled by what
they can observe of a stored file: the page texts a successful
`PdfReader` parse yields, and the paragraph texts a successful
`DocxDocument` parse yields; `none` models a parse failure (corrupt,
encrypted or unreadable file), which the source wraps in a generic
`Exception`. -/

/-- A stored file as the two format parsers see it. -/
structure StoredFile where
  asPdf : Option (List String)
  asDocx : Option (List String)
deriving DecidableEq, Repr

/-- A filesystem: which file, if any, lives at each path. -/
def FileSys : Type := String → Option StoredFile

/-- The extractor's two failure kinds: the `ValueError` raised at
`nlp_engine.py` line 121 for an unsupported extension, versus the
wrapping `Exception` raised at lines 78 and 98 when a parse fails. -/
inductive ExtractErr
  | unsupportedFormat (msg : String)
  | extractionError (msg : String)
deriving DecidableEq, Repr

/-- `PlagiarismDetector.load_pdf` (`nlp_engine.py` lines 57-78):
append each page's text plus a newline, then strip the result; wrap any
parse failure. -/
def load_pdf (fs : FileSys) (file_path : String) : Except ExtractErr String :=
  match fs file_path with
  | some f =>
    match f.asPdf with
    | some pages =>
      .ok (pyStrip (pages.foldl (fun text page => text ++ page ++ "\n") ""))
    | none => .error (.extractionError "Error reading PDF file")
  | none => .error (.extractionError "Error reading PDF file")

/-- `PlagiarismDetector.load_docx` (`nlp_engine.py` lines 80-98):
join the paragraph texts with newlines, then strip; wrap any parse
failure. -/
def load_docx (fs : FileSys) (file_path : String) : Except ExtractErr String :=
  match fs file_path with
  | some f =>
    match f.asDocx with
    | some paras => .ok (pyStrip (String.intercalate "\n" paras))
    | none => .error (.extractionError "Error reading DOCX file")
  | none => .error (.extractionError "Error reading DOCX file")

/-- `PlagiarismDetector.extract_text` (`nlp_engine.py` lines 100-121):
dispatch purely on the lowered extension of the path. -/
def extract_text (fs : FileSys) (file_path : String) : Except ExtractErr String :=
  let file_extension := pyLowerAscii (pySuffix file_path)
  if file_extension = ".pdf" then load_pdf fs file_path
  else if file_extension = ".docx" then load_docx fs file_path
  else
    .error (.unsupportedFormat
      ("Unsupported file format: " ++ file_extension ++ ". Supported formats: .pdf, .docx"))

/-- A two-file example filesystem: a parsable PDF under an uppercase
extension and a parsable DOCX. -/
def fsExample : FileSys := fun p =>
  if p = "papers/doc.PDF" then some ⟨some ["hello", "world"], none⟩
  else if p = "notes.docx" then some ⟨none, some ["a", "b"]⟩
  else if p = "bad.pdf" then some ⟨none, none⟩
  else none

end PlagCheck

namespace PlagCheck

/-! ## Support lemmas for the scorer -/

/-- Zip-with-multiply sums match a `Finset.range` sum over padded reads. -/
theorem dotList_eq_sum (a b : Embedding) :
    dotList a b =
      ∑ i ∈ Finset.range (min a.length b.length), a.getD i 0 * b.getD i 0 := by
  induction a generalizing b with
  | nil => simp [dotList]
  | cons x xs ih =>
    cases b with
    | nil => simp [dotList]
    | cons y ys =>
      have h := ih ys
      simp only [dotList, List.zipWith_cons_cons, List.sum_cons, List.length_cons] at h ⊢
      have hmin : (xs.length + 1) ⊓ (ys.length + 1) = xs.length ⊓ ys.length + 1 := by omega
      rw [hmin, Finset.sum_range_succ']
      simp only [List.getD_cons_succ, List.getD_cons_zero]
      rw [← h]
      ring

/-- A self dot product is a sum of squares, hence nonneg. -/
theorem dotList_self_nonneg (a : Embedding) : 0 ≤ dotList a a := by
  rw [dotList_eq_sum]
  exact Finset.sum_nonneg fun i _ => mul_self_nonneg _

/-- Cauchy-Schwarz for embeddings. -/
theorem dotList_sq_le (a b : Embedding) :
    dotList a b ^ 2 ≤ dotList a a * dotList b b := by
  have hcs := Finset.sum_mul_sq_le_sq_mul_sq
    (Finset.range (min a.length b.length)) (fun i => a.getD i 0) (fun i => b.getD i 0)
  have ha : ∑ i ∈ Finset.range (min a.length b.length), (a.getD i 0) ^ 2 ≤ dotList a a := by
    rw [dotList_eq_sum a a, Nat.min_self]
    calc ∑ i ∈ Finset.range (min a.length b.length), (a.getD i 0) ^ 2
        ≤ ∑ i ∈ Finset.range a.length, (a.getD i 0) ^ 2 :=
          Finset.sum_le_sum_of_subset_of_nonneg
            (Finset.range_subset.2 (Nat.min_le_left _ _)) fun i _ _ => sq_nonneg _
      _ = ∑ i ∈ Finset.range a.length, a.getD i 0 * a.getD i 0 :=
          Finset.sum_congr rfl fun i _ => by ring
  have hb : ∑ i ∈ Finset.range (min a.length b.length), (b.getD i 0) ^ 2 ≤ dotList b b := by
    rw [dotList_eq_sum b b, Nat.min_self]
    calc ∑ i ∈ Finset.range (min a.length b.length), (b.getD i 0) ^ 2
        ≤ ∑ i ∈ Finset.range b.length, (b.getD i 0) ^ 2 :=
          Finset.sum_le_sum_of_subset_of_nonneg
            (Finset.range_subset.2 (Nat.min_le_right _ _)) fun i _ _ => sq_nonneg _
      _ = ∑ i ∈ Finset.range b.length, b.getD i 0 * b.getD i 0 :=
          Finset.sum_congr rfl fun i _ => by ring
  have h1 : (0 : ℝ) ≤ ∑ i ∈ Finset.range (min a.length b.length), (b.getD i 0) ^ 2 :=
    Finset.sum_nonneg fun i _ => sq_nonneg _
  calc dotList a b ^ 2
      = (∑ i ∈ Finset.range (min a.length b.length), a.getD i 0 * b.getD i 0) ^ 2 := by
        rw [dotList_eq_sum]
    _ ≤ (∑ i ∈ Finset.range (min a.length b.length), (a.getD i 0) ^ 2) *
          ∑ i ∈ Finset.range (min a.length b.length), (b.getD i 0) ^ 2 := hcs
    _ ≤ dotList a a * dotList b b :=
        mul_le_mul ha hb h1 (dotList_self_nonneg a)

/-- The absolute cosine similarity never exceeds 1. -/
theorem abs_cosineSim_le_one (a b : Embedding) : |cosineSim a b| ≤ 1 := by
  unfold cosineSim norm2
  rcases eq_or_lt_of_le
      (mul_nonneg (Real.sqrt_nonneg (dotList a a)) (Real.sqrt_nonneg (dotList b b)))
    with hz | hpos
  · rw [← hz, div_zero, abs_zero]; exact zero_le_one
  · rw [abs_div, abs_of_pos hpos, div_le_one hpos]
    rw [← Real.sqrt_mul (dotList_self_nonneg a)]
    have h1 : |dotList a b| = Real.sqrt (dotList a b ^ 2) := by
      rw [Real.sqrt_sq_eq_abs]
    rw [h1]
    exact Real.sqrt_le_sqrt (dotList_sq_le a b)

/-- Rounding to two decimals respects a symmetric integer bound. -/
theorem round2dp_abs_le (x : ℝ) (n : ℕ) (h : |x| ≤ n) : |round2dp x| ≤ n := by
  have h3 : |x * 100 - (round (x * 100) : ℝ)| ≤ 1 / 2 := abs_sub_round (x * 100)
  have h4 : |x * 100| ≤ (n : ℝ) * 100 := by
    rw [abs_mul, abs_of_pos (by norm_num : (0 : ℝ) < 100)]
    nlinarith [h]
  have habs := abs_sub_abs_le_abs_sub ((round (x * 100) : ℝ)) (x * 100)
  rw [abs_sub_comm] at habs
  have h5 : |(round (x * 100) : ℝ)| ≤ (n : ℝ) * 100 + 1 / 2 := by linarith
  have h7 : |round (x * 100)| ≤ (n : ℤ) * 100 := by
    have hlt : ((|round (x * 100)| : ℤ) : ℝ) < (((n : ℤ) * 100 : ℤ) : ℝ) + 1 := by
      rw [Int.cast_abs]
      push_cast
      linarith
    exact Int.lt_add_one_iff.mp (by exact_mod_cast hlt)
  unfold round2dp
  rw [abs_div, abs_of_pos (by norm_num : (0 : ℝ) < 100),
    div_le_iff₀ (by norm_num : (0 : ℝ) < 100)]
  calc |(round (x * 100) : ℝ)| = ((|round (x * 100)| : ℤ) : ℝ) := by rw [Int.cast_abs]
    _ ≤ (((n : ℤ) * 100 : ℤ) : ℝ) := by exact_mod_cast h7
    _ = (n : ℝ) * 100 := by push_cast; ring

/-! ## Support lemmas for the hasher -/

/-- Folding `update` accumulates the concatenation of the blocks. -/
theorem foldl_hashUpdate (cs : List (List Nat)) (acc : List Nat) :
    cs.foldl hashUpdate acc = acc ++ cs.flatten := by
  induction cs generalizing acc with
  | nil => simp
  | cons c cs ih => simp [hashUpdate, ih]

/-- Chunking with enough fuel splits a list without loss. -/
theorem chunksGo_flatten (n : Nat) (hn : 1 ≤ n) :
    ∀ (fuel : Nat) (l : List α), l.length ≤ fuel → (chunksGo n fuel l).flatten = l := by
  intro fuel
  induction fuel with
  | zero =>
    intro l h
    cases l with
    | nil => simp [chunksGo]
    | cons x xs => simp at h
  | succ fuel ih =>
    intro l h
    cases l with
    | nil => simp [chunksGo]
    | cons x xs =>
      simp only [chunksGo, List.flatten_cons]
      rw [ih ((x :: xs).drop n) (by simp at h ⊢; omega)]
      exact List.take_append_drop n (x :: xs)

/-- Chunking a list into nonempty blocks splits it without loss. -/
theorem chunkList_flatten (n : Nat) (hn : 1 ≤ n) (l : List α) :
    (chunkList n l).flatten = l :=
  chunksGo_flatten n hn l.length l le_rfl

/-- The streamed hash equals the hash of the whole content: the file's
path and timestamp do not enter the computation. -/
theorem compute_file_hash_eq (f : DiskFile) :
    compute_file_hash f = sha256hex f.content := by
  unfold compute_file_hash
  rw [foldl_hashUpdate, chunkList_flatten 4096 (by norm_num)]
  rfl

/-- Every hex digit produced by `hexChar` is a lowercase hex digit. -/
theorem hexChar_mem (n : Nat) : hexChar n ∈ hexDigits := by
  unfold hexChar
  rcases Nat.lt_or_ge n hexDigits.length with h | h
  · rw [List.getD_eq_getElem _ _ h]
    exact List.getElem_mem h
  · rw [List.getD_eq_default _ _ h]
    decide

/-- Every character of a hex digest is a lowercase hex digit. -/
theorem sha256hex_all_hex (msg : List Nat) :
    (sha256hex msg).data.all (fun c => decide (c ∈ hexDigits)) = true := by
  rw [List.all_eq_true]
  intro c hc
  rw [decide_eq_true_eq]
  have hc2 : c ∈ ((sha256 msg).map byteHex).flatten := hc
  rw [List.mem_flatten] at hc2
  obtain ⟨l, hl, hcl⟩ := hc2
  rw [List.mem_map] at hl
  obtain ⟨b, _, rfl⟩ := hl
  have : c = hexChar (b / 16 % 16) ∨ c = hexChar (b % 16) := by
    simpa [byteHex] using hcl
  rcases this with rfl | rfl <;> exact hexChar_mem _

end PlagCheck

namespace PlagCheck

/-! ## Theorems for the claims -/

/-- Claim C2: whenever the uploaded bytes decode (UTF-8, errors ignored)
to a non-blank string, the handler returns HTTP 200 with body
`{"similarity_score": 25, "filename": <upload name>, "status": "success"}`,
for any filename and any content, with an empty effect trace: no hashing,
no extraction, no similarity computation, no database access and no
filesystem write. -/
theorem check_plagiarism_stub_success (filename : String) (content : List Nat)
    (h : pyStrip (decodeUpload content) ≠ "") :
    check_plagiarism filename content =
      (⟨200, [("similarity_score", JVal.int 25),
              ("filename", JVal.str filename),
              ("status", JVal.str "success")]⟩, []) := by
  unfold check_plagiarism
  simp [h]

/-- Witness for `check_plagiarism_stub_success` at a concrete upload. -/
theorem check_plagiarism_stub_success_witness :
    check_plagiarism "notes.txt" [104, 105] =
      (⟨200, [("similarity_score", JVal.int 25),
              ("filename", JVal.str "notes.txt"),
              ("status", JVal.str "success")]⟩, []) :=
  check_plagiarism_stub_success "notes.txt" [104, 105] (by decide)

/-- Claim C1 (counter-evidence): a request named `essay.txt` — an
extension that is neither `.pdf` nor `.docx` — with non-blank content
`b"hello"` is not rejected: the handler answers HTTP 200 with the
success body, not HTTP 400 with a `detail` field. -/
theorem check_plagiarism_no_validation :
    check_plagiarism "essay.txt" [104, 101, 108, 108, 111] =
      (⟨200, [("similarity_score", JVal.int 25),
              ("filename", JVal.str "essay.txt"),
              ("status", JVal.str "success")]⟩, []) ∧
    (check_plagiarism "essay.txt" [104, 101, 108, 108, 111]).1.status ≠ 400 ∧
    ¬ "detail" ∈ bodyKeys (check_plagiarism "essay.txt" [104, 101, 108, 108, 111]).1 := by
  decide

/-- Claim C3 (counter-evidence): a successful request (here `a.pdf` with
content `b"hello"`) yields a body whose only fields are
`similarity_score`, `filename` and `status`; none of `message`,
`document_id`, `upload_timestamp`, `similarity_percentage`, `file_hash`,
`text_extracted_length` is present. -/
theorem check_plagiarism_success_fields_missing :
    (check_plagiarism "a.pdf" [104, 101, 108, 108, 111]).1.status = 200 ∧
    bodyKeys (check_plagiarism "a.pdf" [104, 101, 108, 108, 111]).1 =
      ["similarity_score", "filename", "status"] ∧
    ¬ "message" ∈ bodyKeys (check_plagiarism "a.pdf" [104, 101, 108, 108, 111]).1 ∧
    ¬ "document_id" ∈ bodyKeys (check_plagiarism "a.pdf" [104, 101, 108, 108, 111]).1 ∧
    ¬ "upload_timestamp" ∈ bodyKeys (check_plagiarism "a.pdf" [104, 101, 108, 108, 111]).1 ∧
    ¬ "similarity_percentage" ∈ bodyKeys (check_plagiarism "a.pdf" [104, 101, 108, 108, 111]).1 ∧
    ¬ "file_hash" ∈ bodyKeys (check_plagiarism "a.pdf" [104, 101, 108, 108, 111]).1 ∧
    ¬ "text_extracted_length" ∈ bodyKeys (check_plagiarism "a.pdf" [104, 101, 108, 108, 111]).1 := by
  decide

/-- Claim C8 (counter-evidence): uploading the same bytes `b"hello"`
twice, as `a.pdf` then `b.pdf`, starting from an empty ledger, leaves
the ledger empty — no `DocumentRecord` is ever created — and neither
success response carries a `document_id` field. -/
theorem dedup_invariant_violated :
    (runRequests [("a.pdf", [104, 101, 108, 108, 111]),
                  ("b.pdf", [104, 101, 108, 108, 111])] []).1 = ([] : Ledger) ∧
    ((runRequests [("a.pdf", [104, 101, 108, 108, 111]),
                   ("b.pdf", [104, 101, 108, 108, 111])] []).2.map
        (fun r => decide ("document_id" ∈ bodyKeys r.1))) = [false, false] ∧
    ((runRequests [("a.pdf", [104, 101, 108, 108, 111]),
                   ("b.pdf", [104, 101, 108, 108, 111])] []).2.map
        (fun r => r.1.status)) = [200, 200] := by
  decide

/-- Claim C9 (counter-evidence): a well-named but corrupt upload — a
`.docx` file whose bytes `b"PK\x03\x04"` are a truncated zip — is
answered with HTTP 200 and the success body; the extractor is never
invoked on any request (the effect trace is empty), so no extraction
failure can ever surface as a 422 and the claim's premise is
unreachable. -/
theorem extraction_never_reached :
    check_plagiarism "bad.docx" [80, 75, 3, 4] =
      (⟨200, [("similarity_score", JVal.int 25),
              ("filename", JVal.str "bad.docx"),
              ("status", JVal.str "success")]⟩, []) ∧
    (check_plagiarism "bad.docx" [80, 75, 3, 4]).1.status ≠ 422 := by
  decide

/-- Claim C4: if either input is blank after trimming, the scorer
returns exactly 0.0 and its encode trace is empty — the embedding
collaborator is not applied to either input on that run. -/
theorem compute_similarity_blank_short_circuit (m : EncodeModel) (text1 text2 : String)
    (h : pyStrip text1 = "" ∨ pyStrip text2 = "") :
    compute_similarity m text1 text2 = (0, []) := by
  unfold compute_similarity
  rw [if_pos h]

/-- Witness for `compute_similarity_blank_short_circuit`: a whitespace
first input against `"x"`. -/
theorem compute_similarity_blank_short_circuit_witness :
    compute_similarity constantModel "   " "x" = (0, []) :=
  compute_similarity_blank_short_circuit constantModel "   " "x" (Or.inl (by decide))

/-- Claim C5 (counterexample): with an embedding collaborator that sends
the two non-blank texts `"a"` and `"b"` to antipodal vectors `[1]` and
`[-1]`, the returned score is `-100.0`, which does not lie in the
interval `[0, 100]`. -/
theorem compute_similarity_score_below_zero :
    (compute_similarity oppositeModel "a" "b").1 = -100 ∧
    ¬ (0 : ℝ) ≤ (compute_similarity oppositeModel "a" "b").1 := by
  have e1 : oppositeModel.encode "a" = [(1 : ℝ)] := by
    simp [oppositeModel]
  have e2 : oppositeModel.encode "b" = [(-1 : ℝ)] := by
    simp [oppositeModel]
  have hcos : cosineSim (oppositeModel.encode "a") (oppositeModel.encode "b") = -1 := by
    rw [e1, e2]
    unfold cosineSim norm2 dotList
    norm_num
  have hval : (compute_similarity oppositeModel "a" "b").1 = -100 := by
    unfold compute_similarity
    rw [if_neg (by decide)]
    dsimp only
    rw [hcos]
    unfold round2dp
    rw [show ((-1 : ℝ) * 100) * 100 = ((-10000 : ℤ) : ℝ) by push_cast; ring,
      round_intCast]
    norm_num
  exact ⟨hval, by rw [hval]; norm_num⟩

/-- Claim C5 (amended): on two non-blank inputs the scorer returns the
cosine similarity of the two embedding vectors multiplied by 100 and
rounded to two decimal places, and this value always lies in the closed
interval `[-100, 100]` (the cosine itself lies in `[-1, 1]` and the code
does not clamp negative values). -/
theorem compute_similarity_nonblank_score (m : EncodeModel) (text1 text2 : String)
    (h1 : pyStrip text1 ≠ "") (h2 : pyStrip text2 ≠ "") :
    compute_similarity m text1 text2 =
      (round2dp (cosineSim (m.encode text1) (m.encode text2) * 100), [text1, text2]) ∧
    -100 ≤ (compute_similarity m text1 text2).1 ∧
    (compute_similarity m text1 text2).1 ≤ 100 := by
  have heq : compute_similarity m text1 text2 =
      (round2dp (cosineSim (m.encode text1) (m.encode text2) * 100), [text1, text2]) := by
    unfold compute_similarity
    rw [if_neg (by simp [h1, h2])]
  have hb : |cosineSim (m.encode text1) (m.encode text2) * 100| ≤ ((100 : ℕ) : ℝ) := by
    rw [abs_mul, abs_of_pos (by norm_num : (0 : ℝ) < 100)]
    have := abs_cosineSim_le_one (m.encode text1) (m.encode text2)
    push_cast
    nlinarith [this]
  have hr := round2dp_abs_le _ 100 hb
  have hr2 := abs_le.mp hr
  refine ⟨heq, ?_, ?_⟩
  · rw [heq]
    dsimp only
    have := hr2.1
    push_cast at this
    linarith
  · rw [heq]
    dsimp only
    have := hr2.2
    push_cast at this
    linarith

/-- Witness for `compute_similarity_nonblank_score` with a constant
embedding collaborator and the non-blank inputs `"a"`, `"b"`. -/
theorem compute_similarity_nonblank_score_witness :
    compute_similarity constantModel "a" "b" =
      (round2dp (cosineSim (constantModel.encode "a") (constantModel.encode "b") * 100),
        ["a", "b"]) ∧
    -100 ≤ (compute_similarity constantModel "a" "b").1 ∧
    (compute_similarity constantModel "a" "b").1 ≤ 100 :=
  compute_similarity_nonblank_score constantModel "a" "b" (by decide) (by decide)

/-- Claim C7: extraction dispatches purely on the case-insensitive file
extension: a `.pdf` path yields the page texts concatenated with
newline separators and trimmed only at the end; a `.docx` path yields
the paragraph texts joined by newlines and trimmed at the end; any
other extension fails with the `ValueError` kind for every filesystem
alike — the file is never read — and that failure is a different
constructor from the parse-failure kind raised on a corrupt file. -/
theorem extract_text_dispatch (fs fs' : FileSys) (file_path : String)
    (f : StoredFile) (pages paras : List String) :
    (pyLowerAscii (pySuffix file_path) = ".pdf" → fs file_path = some f →
      f.asPdf = some pages →
      extract_text fs file_path =
        .ok (pyStrip (pages.foldl (fun text page => text ++ page ++ "\n") ""))) ∧
    (pyLowerAscii (pySuffix file_path) = ".docx" → fs file_path = some f →
      f.asDocx = some paras →
      extract_text fs file_path = .ok (pyStrip (String.intercalate "\n" paras))) ∧
    (pyLowerAscii (pySuffix file_path) = ".pdf" → fs file_path = some f →
      f.asPdf = none →
      extract_text fs file_path = .error (.extractionError "Error reading PDF file")) ∧
    (pyLowerAscii (pySuffix file_path) ≠ ".pdf" →
      pyLowerAscii (pySuffix file_path) ≠ ".docx" →
      extract_text fs file_path =
        .error (.unsupportedFormat ("Unsupported file format: " ++
          pyLowerAscii (pySuffix file_path) ++ ". Supported formats: .pdf, .docx")) ∧
      extract_text fs file_path = extract_text fs' file_path) ∧
    (∀ m m', ExtractErr.unsupportedFormat m ≠ ExtractErr.extractionError m') := by
  refine ⟨?_, ?_, ?_, ?_, fun m m' h => ExtractErr.noConfusion h⟩
  · intro hext hf hp
    obtain ⟨fp, fd⟩ := f
    dsimp only at hp
    subst hp
    unfold extract_text load_pdf
    rw [if_pos hext, hf]
  · intro hext hf hp
    obtain ⟨fp, fd⟩ := f
    dsimp only at hp
    subst hp
    unfold extract_text load_docx
    rw [if_neg (by rw [hext]; decide), if_pos hext, hf]
  · intro hext hf hp
    obtain ⟨fp, fd⟩ := f
    dsimp only at hp
    subst hp
    unfold extract_text load_pdf
    rw [if_pos hext, hf]
  · intro h1 h2
    constructor
    · simp only [extract_text, if_neg h1, if_neg h2]
    · simp only [extract_text, if_neg h1, if_neg h2]

/-- Witness for `extract_text_dispatch` on a concrete filesystem: an
uppercase-extension PDF, a DOCX, a corrupt PDF and a `.txt` file. -/
theorem extract_text_dispatch_witness :
    extract_text fsExample "papers/doc.PDF" = .ok "hello\nworld" ∧
    extract_text fsExample "notes.docx" = .ok "a\nb" ∧
    extract_text fsExample "bad.pdf" = .error (.extractionError "Error reading PDF file") ∧
    extract_text fsExample "essay.txt" =
      .error (.unsupportedFormat "Unsupported file format: .txt. Supported formats: .pdf, .docx") := by
  refine ⟨?_, ?_, ?_, ?_⟩
  · exact ((extract_text_dispatch fsExample fsExample "papers/doc.PDF"
      ⟨some ["hello", "world"], none⟩ ["hello", "world"] []).1
        (by decide) (by decide) rfl).trans (congrArg Except.ok (by decide))
  · exact ((extract_text_dispatch fsExample fsExample "notes.docx"
      ⟨none, some ["a", "b"]⟩ [] ["a", "b"]).2.1
        (by decide) (by decide) rfl).trans (congrArg Except.ok (by decide))
  · exact (extract_text_dispatch fsExample fsExample "bad.pdf"
      ⟨none, none⟩ [] []).2.2.1 (by decide) (by decide) rfl
  · exact (((extract_text_dispatch fsExample fsExample "essay.txt"
      ⟨none, none⟩ [] []).2.2.2.1 (by decide) (by decide)).1).trans
      (congrArg (fun s => Except.error (ExtractErr.unsupportedFormat s)) (by decide))

/-- Claim C6: the content fingerprint is deterministic on file content:
two files with identical bytes hash to the same digest, whatever their
paths and timestamps; the digest is the SHA-256 of the content alone,
rendered with lowercase hex digits only. -/
theorem compute_file_hash_deterministic (f g : DiskFile) (h : f.content = g.content) :
    compute_file_hash f = compute_file_hash g ∧
    compute_file_hash f = sha256hex f.content ∧
    (compute_file_hash f).data.all (fun c => decide (c ∈ hexDigits)) = true := by
  refine ⟨?_, compute_file_hash_eq f, ?_⟩
  · rw [compute_file_hash_eq f, compute_file_hash_eq g, h]
  · rw [compute_file_hash_eq f]
    exact sha256hex_all_hex f.content

/-- Witness for `compute_file_hash_deterministic`: the same three bytes
under two different paths and times. -/
theorem compute_file_hash_deterministic_witness :
    compute_file_hash ⟨"/tmp/a/x.pdf", 0, [1, 2, 3]⟩ =
      compute_file_hash ⟨"/tmp/b/y.docx", 99, [1, 2, 3]⟩ ∧
    compute_file_hash ⟨"/tmp/a/x.pdf", 0, [1, 2, 3]⟩ = sha256hex [1, 2, 3] ∧
    (compute_file_hash ⟨"/tmp/a/x.pdf", 0, [1, 2, 3]⟩).data.all
      (fun c => decide (c ∈ hexDigits)) = true :=
  compute_file_hash_deterministic ⟨"/tmp/a/x.pdf", 0, [1, 2, 3]⟩
    ⟨"/tmp/b/y.docx", 99, [1, 2, 3]⟩ rfl

/-- Claim C10: after any run of the handler, every temporary path
created during that run has been removed — indeed the reachable code
creates none, so none remains. -/
theorem temp_files_all_cleaned (filename : String) (content : List Nat) :
    tempsRemaining (check_plagiarism filename content).2 = [] ∧
    tempsCreated (check_plagiarism filename content).2 = [] := by
  by_cases h : pyStrip (decodeUpload content) = "" <;>
    simp [check_plagiarism, h, tempsRemaining, tempsCreated]

end PlagCheck
